import Mathlib

/-!
Verification of the page-crawl-and-extract engine embedded in the two
scraper scripts of this repository:
  src/Data_collection/Web_scraping/simple_scraper.py   (static HTTP variant)
  src/Data_collection/Web_scraping/selenium_scrpaer.py (browser variant)

The render engine (requests + BeautifulSoup, or the Chrome driver) is an
external collaborator: a fetched page is modelled as a `Snapshot`, an opaque
queryable document tree plus the page's resolved URL, and a fetch is an
oracle `String → Except String Snapshot` (exception message on failure).
Element attributes are modelled as string-valued; a queried attribute that
is absent yields `none`, matching both `el.get(name)` in BeautifulSoup and
`el.get_attribute(name)` in Selenium. Redirects are internal to the render
engine and outside the model: the URL a job requests is the snapshot's
resolved base URL.
-/

set_option autoImplicit false

namespace Scraper

/-- One element of a document tree: its visible text and its attributes. -/
structure Element where
  text : String
  attrs : List (String × String)
  deriving Repr

/-- Attribute lookup on an element: `el.get(name)` / `el.get_attribute(name)`;
`none` when the element lacks the attribute. -/
def Element.get (el : Element) (name : String) : Option String :=
  (el.attrs.find? (fun p => p.1 == name)).map (fun p => p.2)

/-- A fetched page: a queryable tree (`select` returns the elements matching a
CSS selector, in document order) plus the page's resolved URL. -/
structure Snapshot where
  select : String → List Element
  current_url : String

/-- One entry of the `Fields` / `FIELDS` configuration dictionaries:
`{"selector": ..., "attribute"/"attr": ..., "multiple": ...}`. -/
structure FieldConfig where
  selector : String
  attr : String
  multiple : Bool
  deriving Repr, DecidableEq

/-- A JSON value as produced for one record field: Python `None`, a string,
or a list whose elements are strings or `None`. -/
inductive Value where
  | null : Value
  | str : String → Value
  | seq : List (Option String) → Value
  deriving Repr, DecidableEq

/-- `Option String` to the record value it becomes in the Python dict. -/
def optValue : Option String → Value
  | none => Value.null
  | some s => Value.str s

/-- Python `dict` update `d[k] = v`: replace the value at the first (unique)
occurrence of the key, keeping its position, else append the new pair. -/
def dictInsert {α : Type} : List (String × α) → String → α → List (String × α)
  | [], k, v => [(k, v)]
  | p :: rest, k, v => if p.1 == k then (k, v) :: rest else p :: dictInsert rest k v

/-- Python `dict` lookup `d.get(k)`: the value at the first occurrence of
the key (keys are unique in a dict). -/
def lookupD {α : Type} : List (String × α) → String → Option α
  | [], _ => none
  | p :: rest, k => if p.1 == k then some p.2 else lookupD rest k

/-- Evaluation of a Python `dict` literal written as a sequence of
`key: value` entries: each entry is inserted in order, a duplicate key
silently overwriting the earlier value. This is how the `Fields` (simple
scraper) and `FIELDS` (selenium scraper) configuration dictionaries are
constructed; no validation of any kind runs. -/
def dictOfList {α : Type} (entries : List (String × α)) : List (String × α) :=
  entries.foldl (fun m p => dictInsert m p.1 p.2) []

/-- The scheme-and-authority prefix of an absolute URL, e.g.
`origin "http://x/a/b" = "http://x"`. -/
def origin (url : String) : String :=
  match url.splitOn "://" with
  | scheme :: rest :: _ =>
    match rest.splitOn "/" with
    | host :: _ => scheme ++ "://" ++ host
    | [] => url
  | _ => url

/-- The directory prefix of a URL, up to and including the last slash of
its path, e.g. `dirOf "http://x/a/b" = "http://x/a/"`. -/
def dirOf (url : String) : String :=
  match url.splitOn "://" with
  | scheme :: rest :: _ =>
    match (rest.splitOn "/").reverse with
    | _ :: init => scheme ++ "://" ++ String.intercalate "/" (init.reverse ++ [""])
    | [] => url
  | _ => url ++ "/"

/-- Whether a string starts with a URL scheme (model: it splits at `://`
with a nonempty, slash-free scheme part). -/
def hasScheme (s : String) : Bool :=
  match s.splitOn "://" with
  | scheme :: _ :: _ => !scheme.isEmpty && (scheme.splitOn "/").length == 1
  | _ => false

/-- Model of `urllib.parse.urljoin` (external library): standard
relative-to-absolute URL resolution of `rel` against `base`. -/
def urljoin (base rel : String) : String :=
  if rel.isEmpty then base
  else if hasScheme rel then rel
  else if rel.startsWith "//" then
    match base.splitOn "://" with
    | scheme :: _ :: _ => scheme ++ ":" ++ rel
    | _ => rel
  else if rel.startsWith "/" then origin base ++ rel
  else dirOf base ++ rel

/-- `get_val(el)` from `simple_scraper.extract_fields`: for attribute
`"text"` the element's stripped text; otherwise the attribute value, with a
non-empty `href`/`src` value resolved against `base_url` by `urljoin`. -/
def get_val (cfg : FieldConfig) (base_url : String) (el : Element) : Option String :=
  if cfg.attr == "text" then
    some el.text.trim
  else
    match el.get cfg.attr with
    | none => none
    | some v =>
      if (cfg.attr == "href" || cfg.attr == "src") && !v.isEmpty then
        some (urljoin base_url v)
      else
        some v

/-- The loop body of `simple_scraper.extract_fields` for one field: the
elements matching the selector decide between the absent-field value
(`[]` for `multiple`, `None` otherwise) and the mapped `get_val` values
(all of them for `multiple`, the first match otherwise). -/
def fieldValue (cfg : FieldConfig) (snap : Snapshot) (base_url : String) : Value :=
  match snap.select cfg.selector with
  | [] => if cfg.multiple then Value.seq [] else Value.null
  | e :: es =>
    if cfg.multiple then Value.seq ((e :: es).map (get_val cfg base_url))
    else optValue (get_val cfg base_url e)

/-- `simple_scraper.extract_fields(html, base_url)`: build the record dict
by inserting each configured field's value in configuration order. -/
def extract_fields (fields : List (String × FieldConfig)) (snap : Snapshot)
    (base_url : String) : List (String × Value) :=
  fields.foldl (fun record p => dictInsert record p.1 (fieldValue p.2 snap base_url)) []

/-- The inner loop of `SeleniumScraper.extract` for one element: stripped
text for attribute `"text"`, else `get_attribute` with non-empty `href`/`src`
values resolved against `base_url` by `urljoin`. -/
def seleniumVal (cfg : FieldConfig) (base_url : String) (el : Element) : Option String :=
  if cfg.attr == "text" then
    some el.text.trim
  else
    match el.get cfg.attr with
    | none => none
    | some raw =>
      if (cfg.attr == "href" || cfg.attr == "src") && !raw.isEmpty then
        some (urljoin base_url raw)
      else
        some raw

/-- The per-field part of `SeleniumScraper.extract`: `vals` is the list of
per-element values; no match gives `[]`/`None`, otherwise `vals` for
`multiple` and `vals[0]` for a single field. -/
def seleniumFieldValue (cfg : FieldConfig) (snap : Snapshot) (base_url : String) : Value :=
  match snap.select cfg.selector with
  | [] => if cfg.multiple then Value.seq [] else Value.null
  | e :: es =>
    if cfg.multiple then Value.seq ((e :: es).map (seleniumVal cfg base_url))
    else optValue (seleniumVal cfg base_url e)

/-- `SeleniumScraper.extract(base_url)`: the record of all configured fields,
then `record["url"] = self.driver.current_url` written last. -/
def seleniumExtract (fields : List (String × FieldConfig)) (snap : Snapshot)
    (base_url : String) : List (String × Value) :=
  dictInsert
    (fields.foldl (fun record p => dictInsert record p.1 (seleniumFieldValue p.2 snap base_url)) [])
    "url" (Value.str snap.current_url)

/-- The per-URL body of `simple_scraper.main` after a successful fetch:
`rec = extract_fields(html, url); rec["url"] = url`. -/
def simpleRecord (fields : List (String × FieldConfig)) (snap : Snapshot)
    (url : String) : List (String × Value) :=
  dictInsert (extract_fields fields snap url) "url" (Value.str url)

/-- Result of `simple_scraper.main`: the accumulated `all_data` and whether
the sink (`save_json`, which creates the directory and writes the file) was
invoked at all. -/
structure SimpleMainResult where
  records : List (List (String × Value))
  sinkInvoked : Bool
  deriving Repr

/-- `simple_scraper.main`: loop over `START_URLS`; each iteration's
fetch-and-extract is wrapped in `try`, an exception only logging and moving
to the next URL; afterwards `save_json` runs if and only if `all_data` is
truthy (non-empty). -/
def simpleMain (fetchO : String → Except String Snapshot)
    (fields : List (String × FieldConfig)) (urls : List String) : SimpleMainResult :=
  let all_data := urls.foldl (fun acc url =>
    match fetchO url with
    | .ok snap => acc ++ [simpleRecord fields snap url]
    | .error _ => acc) []
  { records := all_data, sinkInvoked := !all_data.isEmpty }

/-- `SeleniumScraper.fetch(url)`: `driver.get(url)`; on a first-attempt
`WebDriverException` it sleeps 5 seconds and calls `driver.get(url)` once
more, unguarded, whatever the exception was. `attempt n` is the outcome of
the n-th `driver.get` call. Returns the final outcome, the number of
attempts performed, and the list of sleep durations (seconds) taken. -/
def seleniumFetch (attempt : Nat → Except String Snapshot) :
    Except String Snapshot × Nat × List Nat :=
  match attempt 0 with
  | .ok s => (.ok s, 1, [])
  | .error _ =>
    match attempt 1 with
    | .ok s => (.ok s, 2, [5])
    | .error e => (.error e, 2, [5])

/-- `requests.get` + `raise_for_status` in `simple_scraper.fetch_html`:
a single attempt whose failure propagates; no retry, no sleep. -/
def fetch_html (attempt : Nat → Except String Snapshot) :
    Except String Snapshot × Nat × List Nat :=
  (attempt 0, 1, [])

/-- The per-start-URL `while next_url:` loop of `selenium_scraper.main`,
run with explicit fuel. One iteration: fetch the page (any exception inside
the `try` breaks the loop, keeping the records gathered so far);
`wait_for` on the first configured selector (a page where it matches
nothing raises `TimeoutException`, likewise breaking; an empty `FIELDS`
raises `StopIteration`); extract and append the record; then look for the
pagination element — `NoSuchElementException`, a missing `href`, or an
empty `href` all make `next_url` falsy and end the loop. Returns the
accumulated `all_data` and whether the loop exited on its own (`true`) or
ran out of fuel with `next_url` still set (`false`). -/
def runJob (fetchO : String → Except String Snapshot)
    (fields : List (String × FieldConfig)) (pagSel : Option String) :
    Nat → String → List (List (String × Value)) → List (List (String × Value)) × Bool
  | 0, _, acc => (acc, false)
  | fuel + 1, url, acc =>
    match fetchO url with
    | .error _ => (acc, true)
    | .ok snap =>
      match fields with
      | [] => (acc, true)
      | (_, cfg0) :: _ =>
        match snap.select cfg0.selector with
        | [] => (acc, true)
        | _ :: _ =>
          let acc2 := acc ++ [seleniumExtract fields snap url]
          match pagSel with
          | none => (acc2, true)
          | some sel =>
            match snap.select sel with
            | [] => (acc2, true)
            | nxt :: _ =>
              match nxt.get "href" with
              | none => (acc2, true)
              | some v => if v.isEmpty then (acc2, true) else runJob fetchO fields pagSel fuel v acc2

/-- The record-accumulating part of `selenium_scraper.main`: the outer
`for start_url in START_URLs:` loop threads the shared `all_data` through
each start URL's pagination loop; the file is then written unconditionally. -/
def seleniumMain (fetchO : String → Except String Snapshot)
    (fields : List (String × FieldConfig)) (pagSel : Option String) (fuel : Nat)
    (urls : List String) : List (List (String × Value)) :=
  urls.foldl (fun acc u => (runJob fetchO fields pagSel fuel u acc).1) []

/-- The `Fields` configuration dict literal of `simple_scraper.py`. -/
def Fields : List (String × FieldConfig) :=
  dictOfList
    [("page_title", ⟨"title", "text", false⟩),
     ("heading", ⟨"h1, h2, h3, h4, h5, h6", "text", false⟩),
     ("links", ⟨"a", "href", true⟩),
     ("images", ⟨"img", "src", true⟩),
     ("paragraphs", ⟨"p", "text", true⟩)]

/-- Whether an `Except` is a success. -/
def okB {ε α : Type} : Except ε α → Bool
  | .ok _ => true
  | .error _ => false

/-- What a single iteration of `simple_scraper.main` contributes for one
start URL: the record on a successful fetch, nothing on an exception. -/
def simpleRecOf (fetchO : String → Except String Snapshot)
    (fields : List (String × FieldConfig)) (url : String) :
    Option (List (String × Value)) :=
  match fetchO url with
  | .ok snap => some (simpleRecord fields snap url)
  | .error _ => none

theorem lookupD_dictInsert {α : Type} (m : List (String × α)) (k k' : String) (v : α) :
    lookupD (dictInsert m k v) k' = if k == k' then some v else lookupD m k' := by
  induction m with
  | nil => simp [dictInsert, lookupD]
  | cons p rest ih =>
    by_cases hp : p.1 = k
    · by_cases hk : k = k'
      · subst hp; subst hk; simp [dictInsert, lookupD]
      · have h1 : (p.1 == k) = true := by simpa using hp
        have h2 : (k == k') = false := by simpa using hk
        have h3 : (p.1 == k') = false := by
          simp only [beq_eq_false_iff_ne, ne_eq]
          intro hc; exact hk (hp ▸ hc)
        simp [dictInsert, lookupD, h1, h2, h3]
    · have h1 : (p.1 == k) = false := by simpa using hp
      by_cases hpk' : p.1 = k'
      · have hk : (k == k') = false := by
          simp only [beq_eq_false_iff_ne, ne_eq]
          intro hc; exact hp (by rw [hc, ← hpk'])
        have h3 : (p.1 == k') = true := by simpa using hpk'
        simp [dictInsert, lookupD, h1, h3, hk, ih]
      · have h3 : (p.1 == k') = false := by simpa using hpk'
        simp [dictInsert, lookupD, h1, h3, ih]

theorem lookupD_foldl_dictInsert {α : Type} (l : List (String × α)) :
    ∀ (m : List (String × α)) (k : String),
      lookupD (l.foldl (fun m p => dictInsert m p.1 p.2) m) k =
        l.foldl (fun a p => if p.1 == k then some p.2 else a) (lookupD m k) := by
  induction l with
  | nil => intro m k; rfl
  | cons p t ih =>
    intro m k
    simp only [List.foldl_cons]
    rw [ih, lookupD_dictInsert]

theorem simpleMain_fold_eq (fetchO : String → Except String Snapshot)
    (fields : List (String × FieldConfig)) (urls : List String) :
    ∀ acc : List (List (String × Value)),
      urls.foldl (fun acc url =>
          match fetchO url with
          | .ok snap => acc ++ [simpleRecord fields snap url]
          | .error _ => acc) acc =
        acc ++ urls.filterMap (simpleRecOf fetchO fields) := by
  induction urls with
  | nil => intro acc; simp
  | cons u t ih =>
    intro acc
    simp only [List.foldl_cons, List.filterMap_cons]
    cases h : fetchO u <;>
      simp [simpleRecOf, h, ih, List.append_assoc]

theorem simpleMain_records_eq (fetchO : String → Except String Snapshot)
    (fields : List (String × FieldConfig)) (urls : List String) :
    (simpleMain fetchO fields urls).records = urls.filterMap (simpleRecOf fetchO fields) := by
  simpa using simpleMain_fold_eq fetchO fields urls []

theorem runJob_fetch_error (fetchO : String → Except String Snapshot)
    (fields : List (String × FieldConfig)) (pagSel : Option String) (fuel : Nat)
    (u : String) (acc : List (List (String × Value))) (e : String)
    (h : fetchO u = .error e) :
    runJob fetchO fields pagSel (fuel + 1) u acc = (acc, true) := by
  simp [runJob, h]

/-- A page with no elements at all. -/
def emptySnap : Snapshot :=
  { select := fun _ => [], current_url := "http://x/" }

/-- A fetch whose every attempt times out (a transient failure). -/
def alwaysTimeout : Nat → Except String Snapshot :=
  fun _ => .error "timeout"

/-- A fetch whose first attempt raises a fatal (4xx) error and whose second
attempt succeeds. -/
def fatalThenOk : Nat → Except String Snapshot :=
  fun n => if n = 0 then .error "HTTP 404 Not Found" else .ok emptySnap

/-- The URL of the self-linking page used for the pagination-cycle run. -/
def cycUrl : String := "http://x/page1"

/-- An element whose `href` points back at `cycUrl`. -/
def cycEl : Element := { text := "next", attrs := [("href", cycUrl)] }

/-- A page on which every selector (the first field's and the pagination
selector alike) matches the single element linking back to `cycUrl`. -/
def cycSnap : Snapshot := { select := fun _ => [cycEl], current_url := cycUrl }

/-- A render engine that always serves `cycSnap`. -/
def cycFetch : String → Except String Snapshot := fun _ => .ok cycSnap

/-- A one-rule configuration: `links` collecting every anchor's `href`. -/
def cycFields : List (String × FieldConfig) := [("links", ⟨"a", "href", true⟩)]

/-- A page whose single anchor has no `href` attribute. -/
def noHrefSnap : Snapshot :=
  { select := fun _ => [{ text := "click", attrs := [] }], current_url := "http://x/" }

/-- A render engine for which every fetch raises. -/
def failFetch : String → Except String Snapshot := fun _ => .error "boom"

/-- An anchor element carrying a relative `href`. -/
def linkEl : Element := { text := "a link", attrs := [("href", "/a")] }

/-- C1: the claim says the pagination loop never fetches a URL already in the
job's visited set and that a "next" link pointing at a previously visited URL
ends the job as DONE. The selenium `main` keeps no visited set: on a page
whose `a.next` link's `href` is the page's own (already visited) URL, the
`while next_url:` loop refetches that URL and appends a duplicate record on
every iteration — after any number `n` of iterations it has appended `n`
records and is still running, never having terminated at all, DONE or
otherwise. -/
theorem C1_pagination_cycle_never_terminates (n : Nat) :
    ∀ acc : List (List (String × Value)),
      (runJob cycFetch cycFields (some "a.next") n cycUrl acc).2 = false ∧
      (runJob cycFetch cycFields (some "a.next") n cycUrl acc).1.length = acc.length + n := by
  induction n with
  | zero => intro acc; exact ⟨rfl, rfl⟩
  | succ m ih =>
    intro acc
    have hstep : runJob cycFetch cycFields (some "a.next") (m + 1) cycUrl acc
        = runJob cycFetch cycFields (some "a.next") m cycUrl
            (acc ++ [seleniumExtract cycFields cycSnap cycUrl]) := by
      have hget : cycEl.get "href" = some cycUrl := rfl
      have hne : cycUrl.isEmpty = false := rfl
      simp [runJob, cycFetch, cycFields, cycSnap, hget, hne]
    obtain ⟨h1, h2⟩ := ih (acc ++ [seleniumExtract cycFields cycSnap cycUrl])
    refine ⟨hstep ▸ h1, ?_⟩
    rw [hstep, h2]
    simp
    omega

/-- C2 counterexample: the claim says a fetch whose failures are all
transient is attempted up to `max_retries` = 3 times. On an always-timing-out
URL the selenium fetch makes exactly 2 attempts (one unguarded retry), not
3, before the failure propagates and fails the job. -/
theorem C2_counterexample :
    seleniumFetch alwaysTimeout = (.error "timeout", 2, [5]) ∧ (2 : Nat) ≠ 3 :=
  ⟨rfl, by decide⟩

/-- C2 (amended): the fetch step of the selenium variant performs at most 2
attempts — a single unguarded retry preceded by one fixed 5-second sleep —
and the job fails only after both attempts failed, the propagated outcome
being exactly the second attempt's; the static variant performs exactly one
attempt with no retry and no delay. -/
theorem C2_fetch_retries_once (attempt : Nat → Except String Snapshot) :
    (seleniumFetch attempt).2.1 ≤ 2 ∧
    (seleniumFetch attempt).2.2 = (if okB (attempt 0) then [] else [5]) ∧
    (okB (seleniumFetch attempt).1 = false →
      okB (attempt 0) = false ∧ (seleniumFetch attempt).1 = attempt 1) ∧
    fetch_html attempt = (attempt 0, 1, []) := by
  cases h0 : attempt 0 <;> cases h1 : attempt 1 <;>
    simp [seleniumFetch, fetch_html, okB, h0, h1]

/-- C2 witness: the amended retry bound applied to the always-failing fetch. -/
theorem C2_fetch_retries_once_witness :
    okB (alwaysTimeout 0) = false ∧ (seleniumFetch alwaysTimeout).1 = alwaysTimeout 1 :=
  (C2_fetch_retries_once alwaysTimeout).2.2.1 rfl

/-- C3 counterexample: the claim says a non-transient first-attempt failure
(here an HTTP 404) fails the job immediately with zero retries. The selenium
fetch does not classify failures: after the 404 it sleeps 5 seconds and
retries anyway, and since the second attempt succeeds, the fetch — and with
it the job — succeeds instead of failing immediately. -/
theorem C3_counterexample :
    fatalThenOk 0 = .error "HTTP 404 Not Found" ∧
    seleniumFetch fatalThenOk = (.ok emptySnap, 2, [5]) :=
  ⟨rfl, rfl⟩

/-- C3 (amended): the selenium fetch applies no transient/fatal
classification: whatever error the first attempt raised, it always performs
a second attempt after a 5-second sleep, and the fetch's outcome is exactly
the second attempt's. -/
theorem C3_no_fatal_classification (attempt : Nat → Except String Snapshot)
    (e : String) (h : attempt 0 = .error e) :
    (seleniumFetch attempt).2 = (2, [5]) ∧ (seleniumFetch attempt).1 = attempt 1 := by
  cases h1 : attempt 1 <;> simp [seleniumFetch, h, h1]

/-- C3 witness: the amended no-classification behavior at the 404-then-ok
fetch. -/
theorem C3_no_fatal_classification_witness :
    (seleniumFetch fatalThenOk).2 = (2, [5]) ∧ (seleniumFetch fatalThenOk).1 = fatalThenOk 1 :=
  C3_no_fatal_classification fatalThenOk "HTTP 404 Not Found" rfl

/-- C4: in both scraper variants, a rule with `multiple = True` (MANY)
always produces a list — the empty list when no element matches, never
`None` and never a bare scalar — and a rule with `multiple = False` (SINGLE)
always produces `None` or a scalar string, never a list. -/
theorem C4_multiplicity_shapes (cfg : FieldConfig) (snap : Snapshot) (base : String) :
    (cfg.multiple = true →
      (∃ xs, fieldValue cfg snap base = Value.seq xs) ∧
      (∃ ys, seleniumFieldValue cfg snap base = Value.seq ys)) ∧
    (cfg.multiple = false →
      (fieldValue cfg snap base = Value.null ∨ ∃ s, fieldValue cfg snap base = Value.str s) ∧
      (seleniumFieldValue cfg snap base = Value.null ∨
        ∃ s, seleniumFieldValue cfg snap base = Value.str s)) := by
  unfold fieldValue seleniumFieldValue
  cases hsel : snap.select cfg.selector with
  | nil =>
    cases hm : cfg.multiple <;> simp
  | cons e es =>
    cases hm : cfg.multiple <;> simp
    constructor
    · cases get_val cfg base e <;> simp [optValue]
    · cases seleniumVal cfg base e <;> simp [optValue]

/-- C4 witness: the MANY shape at the one-anchor page. -/
theorem C4_multiplicity_shapes_witness :
    (∃ xs, fieldValue ⟨"a", "href", true⟩ noHrefSnap "http://x/" = Value.seq xs) ∧
    (∃ ys, seleniumFieldValue ⟨"a", "href", true⟩ noHrefSnap "http://x/" = Value.seq ys) :=
  (C4_multiplicity_shapes ⟨"a", "href", true⟩ noHrefSnap "http://x/").1 rfl

/-- C5: in both variants, a named-attribute rule on `href` or `src` whose
matched element carries a non-empty value yields exactly
`urljoin base value` — the standard relative-to-absolute resolution against
the snapshot's base URL — and this resolution is applied for those two
attribute names only: any other named attribute passes the raw attribute
value through, and a `text` rule yields the stripped text untouched. -/
theorem C5_urljoin_exactly_href_src (cfg : FieldConfig) (base : String)
    (el : Element) (v : String) :
    ((cfg.attr = "href" ∨ cfg.attr = "src") → el.get cfg.attr = some v → v ≠ "" →
      get_val cfg base el = some (urljoin base v) ∧
      seleniumVal cfg base el = some (urljoin base v)) ∧
    (cfg.attr ≠ "text" → cfg.attr ≠ "href" → cfg.attr ≠ "src" →
      get_val cfg base el = el.get cfg.attr ∧
      seleniumVal cfg base el = el.get cfg.attr) ∧
    (cfg.attr = "text" →
      get_val cfg base el = some el.text.trim ∧
      seleniumVal cfg base el = some el.text.trim) := by
  refine ⟨?_, ?_, ?_⟩
  · intro hname hget hv
    have hvi : v.isEmpty = false := by
      cases hve : v.isEmpty
      · rfl
      · exact absurd ((String.isEmpty_iff v).mp hve) hv
    rcases hname with h | h <;> rw [h] at hget <;>
      simp [get_val, seleniumVal, h, hget, hvi]
  · intro hT hH hS
    have b1 : (cfg.attr == "text") = false := by simpa using hT
    have b2 : (cfg.attr == "href") = false := by simpa using hH
    have b3 : (cfg.attr == "src") = false := by simpa using hS
    cases hget : el.get cfg.attr <;>
      simp [get_val, seleniumVal, b1, b2, b3, hget]
  · intro hT
    simp [get_val, seleniumVal, hT]

/-- C5 witness: the resolution at a concrete relative `href`. -/
theorem C5_urljoin_exactly_href_src_witness :
    get_val ⟨"a", "href", true⟩ "http://x/" linkEl = some (urljoin "http://x/" "/a") ∧
    seleniumVal ⟨"a", "href", true⟩ "http://x/" linkEl = some (urljoin "http://x/" "/a") :=
  (C5_urljoin_exactly_href_src ⟨"a", "href", true⟩ "http://x/" linkEl "/a").1
    (Or.inl rfl) rfl (by decide)

/-- C6: for every configuration — including one that itself defines a field
named `url` — the produced record's `url` entry is written after all rule
application (`rec["url"] = url` in the static `main`,
`record["url"] = self.driver.current_url` at the end of the selenium
`extract`), so looking it up always yields the page's resolved URL: no
rule's output can shadow it. -/
theorem C6_url_field_reserved (fields : List (String × FieldConfig))
    (snap : Snapshot) (url base : String) :
    lookupD (simpleRecord fields snap url) "url" = some (Value.str url) ∧
    lookupD (seleniumExtract fields snap base) "url" = some (Value.str snap.current_url) := by
  constructor
  · unfold simpleRecord
    rw [lookupD_dictInsert]
    simp
  · unfold seleniumExtract
    rw [lookupD_dictInsert]
    simp

/-- C7: one job's failure never aborts the others, and a failing job keeps
what it had already collected. Static variant: a start URL whose fetch
raises contributes no record, and the run's records are exactly those of
the URLs before it followed by those after it. Selenium variant: a fetch
error makes the per-URL pagination loop stop at once, returning the shared
accumulator unchanged — so the records accumulated by earlier pages and
earlier jobs survive — and the whole run's records are the same as if the
failing start URL had not been configured at all. -/
theorem C7_failure_isolation (fetchO : String → Except String Snapshot)
    (fields : List (String × FieldConfig)) (pagSel : Option String) (fuel : Nat)
    (urls1 urls2 : List String) (u e : String)
    (acc : List (List (String × Value))) (h : fetchO u = .error e) :
    (simpleMain fetchO fields (urls1 ++ u :: urls2)).records
      = (simpleMain fetchO fields urls1).records ++ (simpleMain fetchO fields urls2).records ∧
    runJob fetchO fields pagSel (fuel + 1) u acc = (acc, true) ∧
    seleniumMain fetchO fields pagSel (fuel + 1) (urls1 ++ u :: urls2)
      = seleniumMain fetchO fields pagSel (fuel + 1) (urls1 ++ urls2) := by
  refine ⟨?_, runJob_fetch_error fetchO fields pagSel fuel u acc e h, ?_⟩
  · simp [simpleMain_records_eq, List.filterMap_append, List.filterMap_cons, simpleRecOf, h]
  · unfold seleniumMain
    rw [List.foldl_append, List.foldl_append, List.foldl_cons,
      runJob_fetch_error fetchO fields pagSel fuel u _ e h]

/-- C7 witness: failure isolation at a concrete three-URL run whose middle
URL always fails. -/
theorem C7_failure_isolation_witness :
    (simpleMain failFetch Fields (["http://a/"] ++ "http://u/" :: ["http://b/"])).records
      = (simpleMain failFetch Fields ["http://a/"]).records
        ++ (simpleMain failFetch Fields ["http://b/"]).records ∧
    runJob failFetch Fields (some "a.next") (0 + 1) "http://u/" [] = ([], true) ∧
    seleniumMain failFetch Fields (some "a.next") (0 + 1) (["http://a/"] ++ "http://u/" :: ["http://b/"])
      = seleniumMain failFetch Fields (some "a.next") (0 + 1) (["http://a/"] ++ ["http://b/"]) :=
  C7_failure_isolation failFetch Fields (some "a.next") 0 ["http://a/"] ["http://b/"]
    "http://u/" "boom" [] rfl

/-- C8 counterexample: the claim says a configuration with a duplicate field
name or an empty selector fails with a `ConfigError` at construction. The
configuration dictionaries are plain dict literals and no `ConfigError`
exists anywhere in the program: evaluating the constructor on a
configuration that names the field `t` twice — the second time with an
empty selector — succeeds and yields a dict binding `t` to the later,
empty-selector rule. -/
theorem C8_counterexample :
    dictOfList [("t", (⟨"title", "text", false⟩ : FieldConfig)), ("t", ⟨"", "text", true⟩)]
      = [("t", ⟨"", "text", true⟩)] :=
  rfl

/-- C8 (amended): configuration construction performs no validation and
cannot fail: for every entry sequence, the constructed dict is defined and
binds each field name to the last rule given for it — a duplicate name is
silently collapsed and an empty selector is accepted as-is. -/
theorem C8_no_validation_at_construction {α : Type}
    (entries : List (String × α)) (k : String) :
    lookupD (dictOfList entries) k
      = entries.foldl (fun a p => if p.1 == k then some p.2 else a) none := by
  unfold dictOfList
  rw [lookupD_foldl_dictInsert]
  rfl

/-- C9 counterexample: the claim says a sequence produced by a MANY rule
with a named attribute never contains a null element. On a page whose
single anchor lacks an `href`, the MANY `href` rule yields, in both
variants, the one-element sequence `[None]`. -/
theorem C9_counterexample :
    fieldValue ⟨"a", "href", true⟩ noHrefSnap "http://x/" = Value.seq [none] ∧
    seleniumFieldValue ⟨"a", "href", true⟩ noHrefSnap "http://x/" = Value.seq [none] :=
  ⟨rfl, rfl⟩

/-- C9 (amended): every record field value is null, a string, or an array
whose elements are strings **or null**: a MANY rule yields exactly one
entry per matched element, in document order; with attribute `text` no
entry is ever null, while a named-attribute rule contributes a null entry
for each matched element that lacks the attribute. -/
theorem C9_many_entries_nullable (cfg : FieldConfig) (snap : Snapshot)
    (base : String) (hm : cfg.multiple = true) :
    fieldValue cfg snap base
      = Value.seq ((snap.select cfg.selector).map (get_val cfg base)) ∧
    seleniumFieldValue cfg snap base
      = Value.seq ((snap.select cfg.selector).map (seleniumVal cfg base)) ∧
    (cfg.attr = "text" →
      (∀ x ∈ (snap.select cfg.selector).map (get_val cfg base), x.isSome = true) ∧
      (∀ x ∈ (snap.select cfg.selector).map (seleniumVal cfg base), x.isSome = true)) := by
  refine ⟨?_, ?_, ?_⟩
  · unfold fieldValue
    cases snap.select cfg.selector <;> simp [hm]
  · unfold seleniumFieldValue
    cases snap.select cfg.selector <;> simp [hm]
  · intro ht
    constructor <;>
    · intro x hx
      simp only [List.mem_map] at hx
      obtain ⟨el, _, rfl⟩ := hx
      simp [get_val, seleniumVal, ht]

/-- C9 witness: the amended shape at the one-anchor page for a MANY `text`
rule. -/
theorem C9_many_entries_nullable_witness :
    fieldValue ⟨"p", "text", true⟩ noHrefSnap "http://x/"
      = Value.seq ((noHrefSnap.select "p").map (get_val ⟨"p", "text", true⟩ "http://x/")) ∧
    seleniumFieldValue ⟨"p", "text", true⟩ noHrefSnap "http://x/"
      = Value.seq ((noHrefSnap.select "p").map (seleniumVal ⟨"p", "text", true⟩ "http://x/")) :=
  ⟨(C9_many_entries_nullable ⟨"p", "text", true⟩ noHrefSnap "http://x/" rfl).1,
   (C9_many_entries_nullable ⟨"p", "text", true⟩ noHrefSnap "http://x/" rfl).2.1⟩

/-- C10: in the static variant, `save_json` — the only call that creates the
output directory and opens the output file for writing — runs if and only
if at least one record was extracted; in particular, when every start URL's
fetch raises, no record accumulates and the sink is never invoked, so no
file is created or overwritten. -/
theorem C10_sink_iff_records (fetchO : String → Except String Snapshot)
    (fields : List (String × FieldConfig)) (urls : List String) :
    ((∀ u ∈ urls, okB (fetchO u) = false) →
      (simpleMain fetchO fields urls).sinkInvoked = false) ∧
    ((simpleMain fetchO fields urls).sinkInvoked = true ↔
      (simpleMain fetchO fields urls).records ≠ []) := by
  have hsi : (simpleMain fetchO fields urls).sinkInvoked
      = !(simpleMain fetchO fields urls).records.isEmpty := rfl
  constructor
  · intro hall
    have hrec : (simpleMain fetchO fields urls).records = [] := by
      rw [simpleMain_records_eq]
      rw [List.filterMap_eq_nil_iff]
      intro u hu
      have hu' := hall u hu
      cases hf : fetchO u
      · simp [simpleRecOf, hf]
      · rw [hf] at hu'; exact absurd hu' (by simp [okB])
    rw [hsi, hrec]
    rfl
  · rw [hsi]
    cases hrec : (simpleMain fetchO fields urls).records <;> simp

/-- C10 witness: a run whose single start URL always fails invokes no sink. -/
theorem C10_sink_iff_records_witness :
    (simpleMain failFetch Fields ["http://a/"]).sinkInvoked = false :=
  (C10_sink_iff_records failFetch Fields ["http://a/"]).1 (fun _ _ => rfl)

end Scraper
